import Mathlib

/-
Verification of the voice-pipeline agent (src/agent.py) against its
natural-language specification.  The Python entrypoint is shallowly
embedded: the straight-line context-loading code, the context builder,
the endpointing configuration literals, the metrics hook and the
module-level credential lookup become Lean definitions; the turn-taking
policy, which lives in the external livekit library, is modelled from
the specification.
-/

/-- Message roles of the chat context (livekit ChatContext roles used by
agent.py: the code adds a message with role "system"). -/
inductive Role
  | system
  | assistant
  | user
deriving DecidableEq, Repr

/-- One role-tagged message of the conversation context. -/
structure ChatMessage where
  role : Role
  content : String
deriving DecidableEq, Repr

/-- The ordered conversation context (livekit ChatContext): a list of
messages in insertion order. -/
structure ChatContext where
  messages : List ChatMessage
deriving DecidableEq, Repr

/-- ChatContext() — a freshly constructed, empty chat context
(src/agent.py line 86). -/
def ChatContext.new : ChatContext := ⟨[]⟩

/-- ctx.add_message(role, content) — appends one message at the end
(src/agent.py line 89). -/
def ChatContext.add_message (c : ChatContext) (r : Role) (content : String) : ChatContext :=
  ⟨c.messages ++ [⟨r, content⟩]⟩

/-- The whitespace characters stripped by the Python str.strip() call on
line 75 (the ASCII and Latin-1 characters for which Python str.isspace
holds). -/
def pyWhitespaceChars : List Char :=
  [' ', '\t', '\n', '\x0b', '\x0c', '\r', '\x1c', '\x1d', '\x1e', '\x1f', '\x85', '\xa0']

/-- Whether a character is Python whitespace. -/
def isPySpace (c : Char) : Bool := pyWhitespaceChars.contains c

/-- Python str.strip(): remove leading and trailing whitespace
(src/agent.py line 75, f.read().strip()). -/
def pyStrip (s : String) : String :=
  String.mk (((s.data.dropWhile isPySpace).reverse.dropWhile isPySpace).reverse)

/-- The observable state of the context file latest_context.txt at the
moment the entrypoint reads it: absent, present but unreadable (reading
raises), or readable with given contents. -/
inductive FileState
  | absent
  | unreadable (err : String)
  | readable (contents : String)
deriving DecidableEq, Repr

/-- os.path.exists(context_file) (src/agent.py line 72). -/
def os_path_exists : FileState → Bool
  | FileState.absent => false
  | FileState.unreadable _ => true
  | FileState.readable _ => true

/-- f.read() inside the with-block (src/agent.py line 75): returns the
contents, or raises (modelled as Except.error) when the file is
unreadable or absent. -/
def file_read : FileState → Except String String
  | FileState.absent => Except.error "FileNotFoundError"
  | FileState.unreadable e => Except.error e
  | FileState.readable s => Except.ok s

/-- Severity of a log record emitted by the entrypoint. -/
inductive LogLevel
  | info
  | warning
  | error
deriving DecidableEq, Repr

/-- One log record: a severity and a message. -/
structure LogEntry where
  level : LogLevel
  msg : String
deriving DecidableEq, Repr

/-- Outcome of the context-loading prologue of the entrypoint
(src/agent.py lines 70-80): the raw_context variable after the
if/try/except block, the log records emitted, and how many times the
file was actually read. -/
structure LoadResult where
  raw_context : String
  logs : List LogEntry
  reads : Nat
deriving DecidableEq, Repr

/-- src/agent.py lines 70-80: raw_context starts as the empty string; if
the file exists it is opened and read once, the result stripped; an
exception during the read is caught (except Exception) and logged at
error level, leaving raw_context empty; an absent file is logged at
warning level with no read performed.  The function is total: no path
raises out of the block. -/
def entrypointLoadContext (fs : FileState) : LoadResult :=
  if os_path_exists fs then
    match file_read fs with
    | Except.ok s =>
        ⟨pyStrip s, [⟨LogLevel.info, "Loaded context from latest_context.txt"⟩], 1⟩
    | Except.error e =>
        ⟨"", [⟨LogLevel.error, "Error reading context file: " ++ e⟩], 1⟩
  else
    ⟨"", [⟨LogLevel.warning, "No context file found. Starting with empty context."⟩], 0⟩

/-- src/agent.py lines 86-90: initial_ctx = ChatContext(); if raw_context
is truthy (a non-empty string) one system message holding raw_context is
appended, otherwise the context stays empty. -/
def buildInitialCtx (raw_context : String) : ChatContext :=
  if raw_context = "" then ChatContext.new
  else ChatContext.new.add_message Role.system raw_context

/-- The sequence of externally meaningful steps the straight-line
entrypoint performs, in program order (src/agent.py lines 66-124):
read the context file (70-80), connect (83), build the initial context
(86-90), wait for the participant (93), create the AgentSession (104),
construct the Assistant agent (114), start the session (112-118),
generate the first reply (121-124). -/
inductive EPEvent
  | readContextSource
  | connectRoom
  | buildContext
  | waitParticipant
  | createSession
  | constructAgent
  | startSession
  | generateFirstReply
deriving DecidableEq, BEq, Repr

/-- The entrypoint trace, in source order. -/
def entrypointTrace : List EPEvent :=
  [EPEvent.readContextSource, EPEvent.connectRoom, EPEvent.buildContext,
   EPEvent.waitParticipant, EPEvent.createSession, EPEvent.constructAgent,
   EPEvent.startSession, EPEvent.generateFirstReply]

/-- The initial chat context of a session as a function of the context
file contents over time (timeline n is the file state n steps after
session start).  The code reads the file exactly once, at step 0, before
anything else in the entrypoint, so only timeline 0 is consulted. -/
def sessionInitialContext (timeline : Nat → FileState) : ChatContext :=
  buildInitialCtx (entrypointLoadContext (timeline 0)).raw_context

/-- The endpointing configuration passed to AgentSession
(src/agent.py lines 104-108). -/
structure EndpointingConfig where
  min_endpointing_delay : ℚ
  max_endpointing_delay : ℚ
deriving DecidableEq, Repr

/-- The literal configuration at session creation:
min_endpointing_delay=1.0, max_endpointing_delay=8.0 (both exact binary
floats, rendered as rationals). -/
def sessionConfig : EndpointingConfig := ⟨1, 8⟩

/-- The endpointing configuration observed t steps into the session: the
source supplies the literals once at creation (line 104) and never
reassigns them, so the configuration is the same constant at every
step. -/
def sessionConfigAt (_t : Nat) : EndpointingConfig := sessionConfig

/-- os.environ.get(key): a total lookup returning none when the variable
is absent — it never raises (src/agent.py line 29). -/
def os_environ_get (env : String → Option String) (key : String) : Option String :=
  env key

/-- Module initialization of the credential (src/agent.py line 29):
GOOGLE_API_KEY = os.environ.get("GOOGLE_API_KEY").  The Except wrapper
records whether process start can fail here; os.environ.get is total so
the result is always ok, holding the possibly-absent credential. -/
def moduleLoadCredential (env : String → Option String) : Except String (Option String) :=
  Except.ok (os_environ_get env "GOOGLE_API_KEY")

/-- A metrics event delivered to the metrics hook (livekit
AgentMetrics; its payload is opaque to the handler). -/
structure AgentMetrics where
  kind : String
  value : Int
deriving DecidableEq, Repr

/-- src/agent.py lines 99-101: the metrics handler calls
metrics.log_metrics(agent_metrics) and then
usage_collector.collect(agent_metrics), in that order, with no internal
try/except.  The two sub-calls are passed as fallible functions; an
error from either propagates out of the handler. -/
def on_metrics_collected (logFn collectFn : AgentMetrics → Except String Unit)
    (m : AgentMetrics) : Except String Unit := do
  logFn m
  collectFn m

/-- Modelled from the spec: the turn-taking (endpointing) policy is
implemented inside the external livekit AgentSession and is not part of
src/; this state machine follows §4.3 of the specification.  The state
tracks whether a human utterance is in progress (speech observed and no
end-of-turn emitted yet) and the count of consecutive inactive ticks
since the last activity. -/
structure EPState where
  inUtterance : Bool
  silence : Nat
deriving DecidableEq, Repr

/-- Modelled from the spec (§4.3): one tick of the endpointing policy at
silence threshold minS.  Activity resets the silence timer and marks an
utterance in progress; on inactivity during an utterance the timer
advances and, once it reaches minS, a single end-of-turn fires and the
utterance ends; inactivity outside an utterance only advances the
timer.  Returns the next state and whether end-of-turn fired this
tick. -/
def epStep (minS : Nat) (st : EPState) (active : Bool) : EPState × Bool :=
  if active then (⟨true, 0⟩, false)
  else
    let s := st.silence + 1
    if st.inUtterance then
      if minS ≤ s then (⟨false, s⟩, true)
      else (⟨true, s⟩, false)
    else (⟨false, s⟩, false)

/-- Modelled from the spec (§4.3): run the endpointing policy over a
voice-activity trace, returning the per-tick end-of-turn flags and the
final state. -/
def epRun (minS : Nat) (st : EPState) : List Bool → List Bool × EPState
  | [] => ([], st)
  | a :: rest =>
    let p := epStep minS st a
    let q := epRun minS p.1 rest
    (p.2 :: q.1, q.2)

/-- C1: building the initial context from a non-empty seed S yields
exactly one message, with role system and content S; building from the
empty seed yields the empty context. -/
theorem C1_seed_builds_single_system_message (S : String) (h : S ≠ "") :
    (buildInitialCtx S).messages = [⟨Role.system, S⟩] ∧
    (buildInitialCtx "").messages = [] := by
  constructor
  · simp [buildInitialCtx, h, ChatContext.new, ChatContext.add_message]
  · simp [buildInitialCtx, ChatContext.new]

/-- Witness for C1 at the concrete seed "hello". -/
theorem C1_witness :
    (buildInitialCtx "hello").messages = [⟨Role.system, "hello"⟩] ∧
    (buildInitialCtx "").messages = [] :=
  C1_seed_builds_single_system_message "hello" (by decide)

/-- C2: for a readable file the load performs exactly one read and the
resulting seed is the whole contents stripped of surrounding whitespace;
for an absent file no read happens, the seed is empty and a warning is
logged; the entrypoint performs the read step exactly once, and in every
case the load returns normally (the function is total). -/
theorem C2_file_read_once_stripped (s : String) :
    entrypointLoadContext (FileState.readable s) =
      ⟨pyStrip s, [⟨LogLevel.info, "Loaded context from latest_context.txt"⟩], 1⟩ ∧
    entrypointLoadContext FileState.absent =
      ⟨"", [⟨LogLevel.warning, "No context file found. Starting with empty context."⟩], 0⟩ ∧
    entrypointTrace.count EPEvent.readContextSource = 1 := by
  refine ⟨rfl, rfl, by decide⟩

/-- C3: when the file exists but reading raises, the underlying read
does fail, yet the load catches it, logs at error level, returns
normally with an empty seed, and the session context built from it is
empty — the failure is never fatal. -/
theorem C3_read_error_nonfatal (e : String) :
    file_read (FileState.unreadable e) = Except.error e ∧
    entrypointLoadContext (FileState.unreadable e) =
      ⟨"", [⟨LogLevel.error, "Error reading context file: " ++ e⟩], 1⟩ ∧
    (buildInitialCtx (entrypointLoadContext (FileState.unreadable e)).raw_context).messages
      = [] := by
  refine ⟨rfl, rfl, by
    simp [entrypointLoadContext, os_path_exists, file_read, buildInitialCtx, ChatContext.new]⟩

/-- C4: the entrypoint trace contains the context-source read exactly
once and the first reply generation exactly once, with the read strictly
before the reply; and the initial context of a session depends only on
the file state at session start, so writes after start affect only later
sessions. -/
theorem C4_read_once_before_first_reply :
    entrypointTrace.count EPEvent.readContextSource = 1 ∧
    entrypointTrace.count EPEvent.generateFirstReply = 1 ∧
    entrypointTrace.indexOf EPEvent.readContextSource
      < entrypointTrace.indexOf EPEvent.generateFirstReply ∧
    ∀ t₁ t₂ : Nat → FileState, t₁ 0 = t₂ 0 →
      sessionInitialContext t₁ = sessionInitialContext t₂ := by
  refine ⟨by decide, by decide, by decide, ?_⟩
  intro t₁ t₂ h
  simp [sessionInitialContext, h]

/-- Witness for C4: two timelines that agree at session start but see a
later write yield the same initial context. -/
theorem C4_witness :
    (fun _ : Nat => FileState.absent) 0
      = (fun n : Nat => if n = 0 then FileState.absent else FileState.readable "later write") 0 ∧
    sessionInitialContext (fun _ => FileState.absent)
      = sessionInitialContext
          (fun n => if n = 0 then FileState.absent else FileState.readable "later write") :=
  ⟨rfl, C4_read_once_before_first_reply.2.2.2 _ _ rfl⟩

/-- C5: the endpointing configuration supplied at session creation has
min_endpointing_delay 1.0 within the default range 0.5 to 1.0,
max_endpointing_delay 8.0 within 5.0 to 8.0, satisfies min ≤ max, and is
the same configuration at every step of the session. -/
theorem C5_endpointing_invariants :
    sessionConfig.min_endpointing_delay ≤ sessionConfig.max_endpointing_delay ∧
    (1 : ℚ) / 2 ≤ sessionConfig.min_endpointing_delay ∧
    sessionConfig.min_endpointing_delay ≤ 1 ∧
    (5 : ℚ) ≤ sessionConfig.max_endpointing_delay ∧
    sessionConfig.max_endpointing_delay ≤ 8 ∧
    ∀ t : Nat, sessionConfigAt t = sessionConfig := by
  refine ⟨by norm_num [sessionConfig], by norm_num [sessionConfig], by norm_num [sessionConfig],
    by norm_num [sessionConfig], by norm_num [sessionConfig], fun _ => rfl⟩

/-- C9: context building is deterministic and idempotent — two builds
from the same seed text yield structurally identical contexts (the same
message list, hence same roles, contents and order). -/
theorem C9_build_deterministic (S : String) (c₁ c₂ : ChatContext)
    (h₁ : c₁ = buildInitialCtx S) (h₂ : c₂ = buildInitialCtx S) :
    c₁ = c₂ ∧ c₁.messages = c₂.messages := by
  subst h₁; subst h₂; exact ⟨rfl, rfl⟩

/-- Witness for C9 at the concrete seed "x". -/
theorem C9_witness :
    buildInitialCtx "x" = buildInitialCtx "x" ∧
    (buildInitialCtx "x").messages = (buildInitialCtx "x").messages :=
  C9_build_deterministic "x" _ _ rfl rfl

/-- C10: a context file holding only whitespace strips to the empty
seed, so no seed message is appended and the built context equals the
one built for an absent file; the two cases differ only in the log
level (info for the read file, warning for the absent one). -/
theorem C10_whitespace_only_is_unseeded (s : String)
    (hw : ∀ c ∈ s.data, isPySpace c = true) :
    pyStrip s = "" ∧
    (entrypointLoadContext (FileState.readable s)).raw_context = "" ∧
    buildInitialCtx (entrypointLoadContext (FileState.readable s)).raw_context
      = buildInitialCtx (entrypointLoadContext FileState.absent).raw_context ∧
    (entrypointLoadContext (FileState.readable s)).logs.map LogEntry.level = [LogLevel.info] ∧
    (entrypointLoadContext FileState.absent).logs.map LogEntry.level = [LogLevel.warning] := by
  have h1 : s.data.dropWhile isPySpace = [] := by
    rw [List.dropWhile_eq_nil_iff]
    intro x hx
    exact hw x hx
  have hstrip : pyStrip s = "" := by
    rw [pyStrip, h1]
    rfl
  have hraw : (entrypointLoadContext (FileState.readable s)).raw_context = "" := by
    simp [entrypointLoadContext, os_path_exists, file_read, hstrip]
  refine ⟨hstrip, hraw, by rw [hraw]; rfl, rfl, rfl⟩

/-- Witness for C10 at the concrete one-space file. -/
theorem C10_witness :
    (∀ c ∈ (" ").data, isPySpace c = true) ∧ pyStrip " " = "" :=
  ⟨by decide, (C10_whitespace_only_is_unseeded " " (by decide)).1⟩

/-- Counterexample to C6: with an environment lacking GOOGLE_API_KEY,
the module-level credential lookup succeeds (it yields none rather than
failing), so the process does not fail at start with a missing
credential. -/
theorem C6_counterexample :
    os_environ_get (fun _ => none) "GOOGLE_API_KEY" = none ∧
    moduleLoadCredential (fun _ => none) = Except.ok none ∧
    (moduleLoadCredential (fun _ => none)).isOk = true :=
  ⟨rfl, rfl, rfl⟩

/-- C6 amended: a missing language-model API key is not detected at
process start — os.environ.get returns the possibly-absent value and
module initialization always succeeds; the credential is only handed to
the provider when the Assistant agent is constructed, which happens
after the AgentSession is created. -/
theorem C6_amended_credential_not_checked_at_start (env : String → Option String) :
    moduleLoadCredential env = Except.ok (os_environ_get env "GOOGLE_API_KEY") ∧
    entrypointTrace.indexOf EPEvent.createSession
      < entrypointTrace.indexOf EPEvent.constructAgent :=
  ⟨rfl, by decide⟩

/-- Counterexample to C7: when the usage-collector sub-call fails, the
metrics handler returns that error — the failure is propagated out of
the handler, not swallowed inside it. -/
theorem C7_counterexample :
    on_metrics_collected (fun _ => Except.ok ())
      (fun _ => Except.error "usage collector failure") ⟨"llm_metrics", 0⟩
      = Except.error "usage collector failure" :=
  rfl

/-- C7 amended: the handler runs metrics logging and then usage
aggregation with no internal error handling — an error from the logging
sub-call propagates out of the handler (skipping aggregation), and when
logging succeeds the outcome is exactly that of the aggregation
sub-call; any swallowing of handler errors is done by the external
event emitter, not by this code. -/
theorem C7_amended_handler_propagates (logFn collectFn : AgentMetrics → Except String Unit)
    (m : AgentMetrics) (e : String) :
    (logFn m = Except.error e → on_metrics_collected logFn collectFn m = Except.error e) ∧
    (logFn m = Except.ok () → on_metrics_collected logFn collectFn m = collectFn m) := by
  constructor
  · intro h
    simp only [on_metrics_collected, h]
    rfl
  · intro h
    simp only [on_metrics_collected, h]
    rfl

/-- Witness for the amended C7: a failing logging sub-call makes the
handler return that failure. -/
theorem C7_witness :
    on_metrics_collected (fun _ => Except.error "log failure") (fun _ => Except.ok ())
      ⟨"llm_metrics", 2⟩ = Except.error "log failure" :=
  (C7_amended_handler_propagates (fun _ => Except.error "log failure") (fun _ => Except.ok ())
    ⟨"llm_metrics", 2⟩ "log failure").1 rfl

/-- Unfolding equation for epRun on a cons cell. -/
theorem epRun_cons (minS : Nat) (st : EPState) (a : Bool) (tr : List Bool) :
    epRun minS st (a :: tr) =
      ((epStep minS st a).2 :: (epRun minS (epStep minS st a).1 tr).1,
       (epRun minS (epStep minS st a).1 tr).2) :=
  rfl

/-- Running the policy over an appended trace runs the second part from
the final state of the first. -/
theorem epRun_append (minS : Nat) (xs ys : List Bool) : ∀ st : EPState,
    epRun minS st (xs ++ ys) =
      ((epRun minS st xs).1 ++ (epRun minS (epRun minS st xs).2 ys).1,
       (epRun minS (epRun minS st xs).2 ys).2) := by
  induction xs with
  | nil => intro st; simp [epRun]
  | cons a tl ih =>
    intro st
    simp only [List.cons_append, epRun_cons, ih, List.length_cons]

/-- From the in-utterance state with a fresh silence timer, a run of
active ticks emits no end-of-turn and returns to the same state. -/
theorem epRun_true_start (minS : Nat) : ∀ n : Nat,
    epRun minS ⟨true, 0⟩ (List.replicate n true) = (List.replicate n false, ⟨true, 0⟩) := by
  intro n
  induction n with
  | zero => rfl
  | succ m ih =>
    simp only [List.replicate_succ, epRun_cons]
    simp [epStep, ih]

/-- From any state, a non-empty run of active ticks emits no end-of-turn
and ends in the in-utterance state with timer zero. -/
theorem epRun_active (minS : Nat) (st : EPState) (n : Nat) (h : 1 ≤ n) :
    epRun minS st (List.replicate n true) = (List.replicate n false, ⟨true, 0⟩) := by
  obtain ⟨m, rfl⟩ : ∃ m, n = m + 1 := ⟨n - 1, by omega⟩
  simp only [List.replicate_succ, epRun_cons]
  simp [epStep, epRun_true_start]

/-- In an utterance, inactive ticks below the silence threshold emit no
end-of-turn and only advance the timer. -/
theorem epRun_silence_lt (minS : Nat) : ∀ (n c : Nat), c + n < minS →
    epRun minS ⟨true, c⟩ (List.replicate n false)
      = (List.replicate n false, ⟨true, c + n⟩) := by
  intro n
  induction n with
  | zero => intro c _; simp [epRun]
  | succ m ih =>
    intro c h
    have hlt : ¬ minS ≤ c + 1 := by omega
    simp only [List.replicate_succ, epRun_cons]
    have hstep : epStep minS ⟨true, c⟩ false = (⟨true, c + 1⟩, false) := by
      simp [epStep, hlt]
    rw [hstep]
    have := ih (c + 1) (by omega)
    simp only [this]
    have : c + 1 + m = c + (m + 1) := by omega
    simp [this]

/-- Outside an utterance (after an end-of-turn, before new speech),
inactive ticks never emit an end-of-turn. -/
theorem epRun_idle (minS : Nat) : ∀ (n c : Nat),
    epRun minS ⟨false, c⟩ (List.replicate n false)
      = (List.replicate n false, ⟨false, c + n⟩) := by
  intro n
  induction n with
  | zero => intro c; simp [epRun]
  | succ m ih =>
    intro c
    simp only [List.replicate_succ, epRun_cons]
    have hstep : epStep minS ⟨false, c⟩ false = (⟨false, c + 1⟩, false) := by
      simp [epStep]
    rw [hstep]
    have := ih (c + 1)
    simp only [this]
    have : c + 1 + m = c + (m + 1) := by omega
    simp [this]

/-- The policy never emits an end-of-turn on a tick where voice activity
is active. -/
theorem epRun_no_eot_while_active (minS : Nat) : ∀ (tr : List Bool) (st : EPState) (i : Nat),
    i < tr.length → tr.getD i false = true →
    (epRun minS st tr).1.getD i false = false := by
  intro tr
  induction tr with
  | nil => intro st i h; simp at h
  | cons a tl ih =>
    intro st i hlen hact
    cases i with
    | zero =>
      simp only [List.getD_cons_zero] at hact
      subst hact
      simp [epRun_cons, epStep]
    | succ j =>
      simp only [List.getD_cons_succ] at hact
      simp only [epRun_cons, List.getD_cons_succ]
      exact ih (epStep minS st a).1 j (by simpa using Nat.lt_of_succ_lt_succ hlen) hact

/-- C8 (policy modelled from the spec, §4.3): for a trace of a ≥ 1
active ticks followed by b ≥ minSilence inactive ticks with no further
activity, the policy emits exactly one end-of-turn, at the tick where
the silence timer reaches minSilence (immediately after minSilence
elapses); moreover, on any trace, no end-of-turn fires on an active
tick, and outside an utterance silence alone never fires one. -/
theorem C8_endpointing_single_eot (minS a b : Nat)
    (hmin : 1 ≤ minS) (ha : 1 ≤ a) (hb : minS ≤ b) :
    ((epRun minS ⟨false, 0⟩ (List.replicate a true ++ List.replicate b false)).1
        = List.replicate a false ++ List.replicate (minS - 1) false
            ++ true :: List.replicate (b - minS) false
      ∧ (epRun minS ⟨false, 0⟩
          (List.replicate a true ++ List.replicate b false)).1.count true = 1)
    ∧ (∀ (tr : List Bool) (st : EPState) (i : Nat),
        i < tr.length → tr.getD i false = true →
        (epRun minS st tr).1.getD i false = false)
    ∧ (∀ (c n : Nat), (epRun minS ⟨false, c⟩ (List.replicate n false)).1.count true = 0) := by
  have hsplit : List.replicate b false
      = List.replicate (minS - 1) false ++ false :: List.replicate (b - minS) false := by
    have hb2 : b = (minS - 1) + ((b - minS) + 1) := by omega
    nth_rewrite 1 [hb2]
    rw [List.replicate_add, List.replicate_succ]
  have h1 : epRun minS ⟨false, 0⟩ (List.replicate a true)
      = (List.replicate a false, ⟨true, 0⟩) := epRun_active minS _ a ha
  have h2 : epRun minS ⟨true, 0⟩ (List.replicate (minS - 1) false)
      = (List.replicate (minS - 1) false, ⟨true, minS - 1⟩) := by
    have := epRun_silence_lt minS (minS - 1) 0 (by omega)
    simpa using this
  have h3 : epStep minS ⟨true, minS - 1⟩ false = (⟨false, minS⟩, true) := by
    have hms : minS - 1 + 1 = minS := by omega
    simp [epStep, hms]
  have h4 : epRun minS ⟨false, minS⟩ (List.replicate (b - minS) false)
      = (List.replicate (b - minS) false, ⟨false, minS + (b - minS)⟩) :=
    epRun_idle minS _ _
  have hflags : (epRun minS ⟨false, 0⟩ (List.replicate a true ++ List.replicate b false)).1
      = List.replicate a false ++ List.replicate (minS - 1) false
          ++ true :: List.replicate (b - minS) false := by
    rw [hsplit, epRun_append, h1]
    rw [epRun_append, h2]
    rw [epRun_cons, h3]
    simp only [h4]
    rw [List.append_assoc]
  refine ⟨⟨hflags, ?_⟩, fun tr st i hi hact => epRun_no_eot_while_active minS tr st i hi hact,
    fun c n => by rw [epRun_idle]; simp [List.count_replicate]⟩
  rw [hflags]
  simp [List.count_append, List.count_cons, List.count_replicate]

/-- Witness for C8 at minSilence 2, one active tick and three inactive
ticks. -/
theorem C8_witness :
    (epRun 2 ⟨false, 0⟩ (List.replicate 1 true ++ List.replicate 3 false)).1.count true = 1 :=
  (C8_endpointing_single_eot 2 1 3 (by decide) (by decide) (by decide)).1.2
